import Mathlib

/-!
Verification of the Intel baytrail `liblights` HAL (`lights.c`) against its
natural-language specification.  The C source is shallowly embedded: pure
value computations become Lean functions on `Nat`/`Int`, filesystem and
device effects are modelled by explicit environments (`FsEnv`, `WriteEnv`)
and by returning the list of file operations performed, and the
button-light auto-off machinery (`lights_update_thread` /
`lights_events_thread`) becomes an explicit step function on the
`light_info` record together with an event trace.
-/

namespace Liblights

/-! ## Constants from lights.c and the headers it includes -/

def LIGHT_LED_OFF : Nat := 0

def LIGHT_LED_FULL : Nat := 255

def BRIGHT_MAX_BAR : Nat := 255

def MAX_BL_CTRL_DEVICES : Nat := 3

def WAKE_EVENT_MAX : Nat := 8

def WAKE_KEY_MAX : Nat := 32

/-- `KEY_MAX` from `linux/input.h`. -/
def KEY_MAX : Int := 0x2ff

/-- `#define KEY_ANY (KEY_MAX+0x1)` from lights.c. -/
def KEY_ANY : Int := KEY_MAX + 0x1

/-- `EV_KEY` from `linux/input.h`. -/
def EV_KEY : Nat := 0x01

/-- `EV_ABS` from `linux/input.h`. -/
def EV_ABS : Nat := 0x03

/-- `EINVAL` from `errno.h` (the code returns `-EINVAL`). -/
def EINVAL : Int := 22

/-- `ENODEV` from `errno.h` (the code returns `-ENODEV`). -/
def ENODEV : Int := 19

/-! Light identifier strings, from `hardware/lights.h` (quoted in the
comment above `open_lights` in lights.c). -/

def LIGHT_ID_BACKLIGHT : String := "backlight"

def LIGHT_ID_KEYBOARD : String := "keyboard"

def LIGHT_ID_BUTTONS : String := "buttons"

def LIGHT_ID_BATTERY : String := "battery"

def LIGHT_ID_NOTIFICATIONS : String := "notifications"

def LIGHT_ID_ATTENTION : String := "attention"

def LIGHT_ID_KEYBOARD_PATH : String := "/sys/class/keyboard-backlight/brightness"

def LIGHT_ID_BUTTONS_PATH : String := "/sys/class/leds/intel_keypad_led/brightness"

def LIGHT_ID_BATTERY_PATH : String := "/sys/class/battery-backlight/brightness"

def LIGHT_ID_NOTIFICATIONS_PATH : String := "/sys/class/notifications-backlight/brightness"

def LIGHT_ID_ATTENTION_PATH : String := "/sys/class/attention-baklight/brightness"

/-! ## Pure value conversions -/

/-- The `bright_to_intensity(__max, __br, __its)` macro:
`__its = __max * __br; __its = __its / BRIGHT_MAX_BAR;`.
Both operands are non-negative on every call site (the caller checks
`max_br < 0` first and `brightness` is an `unsigned char`), so the C `int`
arithmetic is modelled on `Nat`. -/
def bright_to_intensity (max_br br : Nat) : Nat :=
  max_br * br / BRIGHT_MAX_BAR

/-- `__is_on(state)`: `return state->color & 0x00ffffff;`.
`state->color` is an `unsigned int`; the result is used as a C truth
value (nonzero means on). -/
def __is_on (color : Nat) : Nat :=
  color &&& 0x00ffffff

/-- `__rgb_to_brightness(state)`:
`int color = state->color & 0x00ffffff;`
`unsigned char brightness = ((77*((color>>16)&0x00ff)) + (150*((color>>8)&0x00ff)) + (29*(color&0x00ff))) >> 8;`
The trailing `% 256` models the conversion of the `int` expression into the
`unsigned char` result variable. -/
def __rgb_to_brightness (state_color : Nat) : Nat :=
  let color := state_color &&& 0x00ffffff
  ((77 * ((color >>> 16) &&& 0x00ff)
    + 150 * ((color >>> 8) &&& 0x00ff)
    + 29 * (color &&& 0x00ff)) >>> 8) % 256

/-! ## Filesystem environment and the backlight device table -/

/-- One entry of `backlight_devices[]`.  The mutable `max_brightness`
field of the C struct is not part of the static table; the value stored
into it by `determine_backlight_device` is modelled as the second
component of the selection result below. -/
structure backlight_device_t where
  name : String
  backlight_file : String
  backlight_max_file : String
deriving Repr, DecidableEq

def no_backlight_dev : backlight_device_t :=
  { name := "", backlight_file := "", backlight_max_file := "" }

/-- The static `backlight_devices[]` table, in declaration order
`INTEL_VIDEO_BL_CTRL`, `ACPI_VIDEO_BL_CTRL`, `PSB_BL_VIDEO_BL_CTRL`. -/
def backlight_devices : List backlight_device_t :=
  [ { name := "Intel video backlight control"
    , backlight_file := "/sys/class/backlight/intel_backlight/brightness"
    , backlight_max_file := "/sys/class/backlight/intel_backlight/max_brightness" }
  , { name := "ACPI video backlight control"
    , backlight_file := "/sys/class/backlight/acpi_video0/brightness"
    , backlight_max_file := "/sys/class/backlight/acpi_video0/max_brightness" }
  , { name := "PSB-BL backlight control"
    , backlight_file := "/sys/class/backlight/psb-bl/brightness"
    , backlight_max_file := "/sys/class/backlight/psb-bl/max_brightness" } ]

/-- A file operation performed against the sysfs tree, recorded so that
theorems can speak about which device files an operation touches. -/
inductive FileOp where
  | accessW (path : String)
  | accessR (path : String)
  | openRO (path : String)
  | openRW (path : String)
  | readF (path : String)
deriving Repr, DecidableEq

/-- The filesystem as the program observes it: results of `access`,
`open` and `read` on each path, the integer `atoi` parses out of a file's
content, and the prevailing `errno` of a failing call. -/
structure FsEnv where
  access_w : String → Bool
  access_r : String → Bool
  open_ok : String → Bool
  read_ok : String → Bool
  file_int : String → Int
  errno : Int

/-- `get_max_brightness()` for an already-selected device (on every call
modelled here `cur_backlight_dev` has just been set, so the `NULL`
re-probe branch is not taken): open the max file `O_RDONLY` (failure
returns `-errno`), read it (a failing `read` returns `-1`, which the
function returns), else return the `atoi` of the content. -/
def get_max_brightness (env : FsEnv) (dev : backlight_device_t) : Int × List FileOp :=
  if env.open_ok dev.backlight_max_file = false then
    (-env.errno, [FileOp.openRO dev.backlight_max_file])
  else if env.read_ok dev.backlight_max_file = false then
    (-1, [FileOp.openRO dev.backlight_max_file, FileOp.readF dev.backlight_max_file])
  else
    (env.file_int dev.backlight_max_file,
     [FileOp.openRO dev.backlight_max_file, FileOp.readF dev.backlight_max_file])

/-- One iteration of the `for` loop in `determine_backlight_device`:
`access(backlight_file, W_OK)` failing continues; then
`access(backlight_max_file, R_OK)` failing continues; otherwise the
candidate is adopted (`cur_backlight_dev = &backlight_devices[i];
cur_backlight_dev->max_brightness = get_max_brightness();`).  Note the
loop body contains no `break`, so a later qualifying candidate overwrites
an earlier one. -/
def determine_step (env : FsEnv) (acc : Option (Nat × Int) × List FileOp) (i : Nat) :
    Option (Nat × Int) × List FileOp :=
  let dev := backlight_devices.getD i no_backlight_dev
  let ops1 := acc.2 ++ [FileOp.accessW dev.backlight_file]
  if env.access_w dev.backlight_file = false then
    (acc.1, ops1)
  else
    let ops2 := ops1 ++ [FileOp.accessR dev.backlight_max_file]
    if env.access_r dev.backlight_max_file = false then
      (acc.1, ops2)
    else
      let gm := get_max_brightness env dev
      (some (i, gm.1), ops2 ++ gm.2)

/-- `determine_backlight_device()`: starts from `cur_backlight_dev = NULL`
and runs the probe loop over all `MAX_BL_CTRL_DEVICES` candidates.
Returns the finally selected index with its `max_brightness`, or `none`
(the caller then fails with `-ENODEV`). -/
def determine_backlight_device (env : FsEnv) : Option (Nat × Int) × List FileOp :=
  (List.range MAX_BL_CTRL_DEVICES).foldl (determine_step env) (none, [])

/-- Whether candidate `i` passes both `access` probes of
`determine_backlight_device`. -/
def bl_qualifies (env : FsEnv) (i : Nat) : Bool :=
  env.access_w (backlight_devices.getD i no_backlight_dev).backlight_file
    && env.access_r (backlight_devices.getD i no_backlight_dev).backlight_max_file

/-- Formalisation of the claim's words (not of the code): the FIRST
candidate, in the fixed preference order Intel, ACPI, PSB-BL, whose
brightness control file is writable and whose max-brightness file is
readable. -/
def first_qualifying_backlight (env : FsEnv) : Option Nat :=
  ((List.range MAX_BL_CTRL_DEVICES).filter (fun i => bl_qualifies env i)).head?

/-! ## The brightness channel (`write_brightness`) -/

/-- The device-write side of the world: whether the `write` to the
brightness file succeeds, and the `errno` it fails with. -/
structure WriteEnv where
  write_ok : Bool
  errno : Int

/-- `write_brightness(fd, brightness)`: reads the cached
`cur_backlight_dev->max_brightness`; a negative cache (a previously
failed capability read) returns `-1` WITHOUT writing; otherwise converts
via `bright_to_intensity` and performs one formatted device write
(failure returns `-errno`).  `Except.ok v` means the intensity `v` was
written; `Except.error e` means no write happened (for the `max_br < 0`
branch) or the write failed, and `e` was returned.  The `snprintf`
never fails on this fixed-size buffer, so its error branch is not
modelled. -/
def write_brightness (env : WriteEnv) (max_br : Int) (brightness : Nat) : Except Int Nat :=
  if max_br < 0 then
    Except.error (-1)
  else if env.write_ok then
    Except.ok (bright_to_intensity max_br.toNat brightness)
  else
    Except.error (-env.errno)

/-- `set_light_backlight` on the non-override build (the
`ALLOW_PERSIST_BRIGHTNESS_OVERRIDE` branch is compiled out):
`brightness = __rgb_to_brightness(state); return write_brightness(fd, brightness);`. -/
def set_light_backlight (env : WriteEnv) (max_br : Int) (color : Nat) : Except Int Nat :=
  write_brightness env max_br (__rgb_to_brightness color)

/-- The brightness value `set_light_keyboard` passes to
`write_brightness`: `on ? LIGHT_LED_FULL : LIGHT_LED_OFF` with
`on = __is_on(state)` used as a C truth value. -/
def set_light_keyboard_request (color : Nat) : Nat :=
  if __is_on color ≠ 0 then LIGHT_LED_FULL else LIGHT_LED_OFF

/-- The brightness value `set_light_buttons` uses (both the plain
`write_brightness` variant and the `LIGHT_BUTTONS_AUTO_POWEROFF` variant
store `on ? LIGHT_LED_FULL : LIGHT_LED_OFF`). -/
def set_light_buttons_request (color : Nat) : Nat :=
  if __is_on color ≠ 0 then LIGHT_LED_FULL else LIGHT_LED_OFF

/-- The brightness value `set_light_battery` passes to `write_brightness`. -/
def set_light_battery_request (color : Nat) : Nat :=
  if __is_on color ≠ 0 then LIGHT_LED_FULL else LIGHT_LED_OFF

/-- The brightness value `set_light_notifications` passes to `write_brightness`. -/
def set_light_notifications_request (color : Nat) : Nat :=
  if __is_on color ≠ 0 then LIGHT_LED_FULL else LIGHT_LED_OFF

/-- The brightness value `set_light_attention` passes to `write_brightness`. -/
def set_light_attention_request (color : Nat) : Nat :=
  if __is_on color ≠ 0 then LIGHT_LED_FULL else LIGHT_LED_OFF

/-! ## The auto-off scheduler (`lights_update_thread`) -/

/-- The mutable scheduler fields of `struct light_info` (the condition
variable, mutex, fd and wake-event table are modelled elsewhere). -/
structure light_info where
  brightness : Nat
  brightness_status : Nat
  need_update : Bool
  need_auto_off : Bool
  auto_off_time : Nat
deriving Repr, DecidableEq

/-- How the loop blocks after an iteration: `pthread_cond_wait` (no
timeout armed) or `pthread_cond_timedwait` with the given seconds. -/
inductive WaitMode where
  | forever
  | timed (secs : Nat)
deriving Repr, DecidableEq

/-- What wakes the scheduler loop between iterations:
`set_light_buttons` (stores the new brightness, sets `need_update`,
signals), a wake signal from `lights_events_thread` (sets `need_update`,
signals), or expiry of the timed wait (changes nothing). -/
inductive SchedEvent where
  | setBrightness (v : Nat)
  | wakeEvent
  | timeout
deriving Repr, DecidableEq

/-- Effect of a `SchedEvent` on the shared state, as performed under
`info->lock` by `set_light_buttons` / `lights_events_thread`. -/
def apply_event : SchedEvent → light_info → light_info
  | SchedEvent.setBrightness v, info =>
      { info with brightness := v, need_update := true }
  | SchedEvent.wakeEvent, info => { info with need_update := true }
  | SchedEvent.timeout, info => info

/-- One iteration of the `for (;;)` body of `lights_update_thread` after
reacquiring the lock: the update branch writes `info->brightness` when it
differs from `brightness_status`, the auto-off branch writes
`LIGHT_LED_OFF` when the status is not already off, and the iteration
ends by choosing how to block (`pthread_cond_wait` when the status is
`LIGHT_LED_OFF`, else `pthread_cond_timedwait` armed with
`auto_off_time`).  The middle component lists the device writes of the
iteration. -/
def update_step (info : light_info) : light_info × List Nat × WaitMode :=
  let st_w :=
    if info.need_update then
      let info1 : light_info := { info with need_update := false }
      if info1.brightness_status ≠ info1.brightness then
        (({ info1 with brightness_status := info1.brightness } : light_info),
         [info1.brightness])
      else
        (info1, ([] : List Nat))
    else
      if info.brightness_status ≠ LIGHT_LED_OFF then
        (({ info with brightness_status := LIGHT_LED_OFF } : light_info),
         [LIGHT_LED_OFF])
      else
        (info, ([] : List Nat))
  let mode :=
    if st_w.1.brightness_status = LIGHT_LED_OFF then WaitMode.forever
    else WaitMode.timed st_w.1.auto_off_time
  (st_w.1, st_w.2, mode)

/-- The prologue of `lights_update_thread`, before the loop:
`write_brightness(info->fd, info->brightness); info->brightness_status =
info->brightness; if (info->brightness != LIGHT_LED_OFF)
info->need_auto_off = 1;`.  The second component is the single
unconditional device write. -/
def lights_update_start (info : light_info) : light_info × List Nat :=
  ({ info with
      brightness_status := info.brightness
      need_auto_off :=
        if info.brightness ≠ LIGHT_LED_OFF then true else info.need_auto_off },
   [info.brightness])

/-- Run the scheduler loop against a trace of wake-ups: each trace entry
mutates the shared state (under the lock) and then the loop body runs
once.  Collects every device write in order. -/
def sched_run (st : light_info) (events : List SchedEvent) : light_info × List Nat :=
  match events with
  | [] => (st, [])
  | e :: rest =>
      let st1 := apply_event e st
      let step := update_step st1
      let next := sched_run step.1 rest
      (next.1, step.2.1 ++ next.2)

/-- All device writes `lights_update_thread` performs on a trace: the
unconditional initial write followed by the loop's writes. -/
def lights_thread_writes (info : light_info) (events : List SchedEvent) : List Nat :=
  (lights_update_start info).2 ++ (sched_run (lights_update_start info).1 events).2

/-- The `SchedEvent` produced by the `LIGHT_BUTTONS_AUTO_POWEROFF`
variant of `set_light_buttons`: store `on ? LIGHT_LED_FULL :
LIGHT_LED_OFF` into `info->brightness`, set `need_update`, signal. -/
def set_light_buttons_event (color : Nat) : SchedEvent :=
  SchedEvent.setBrightness (set_light_buttons_request color)

/-! ## The wake-event monitor (`lights_events_thread`) -/

/-- One raw `struct input_event` as read from an input device. `code` is
a `__u16` compared (after integer promotion) against the `int` entries of
the key table, so it is modelled as `Int`. -/
structure input_event where
  type : Nat
  code : Int
  value : Int
deriving Repr, DecidableEq

/-- The configuration part of `struct light_wake_event`: expected event
type and the key table `int key[WAKE_KEY_MAX]`. -/
structure light_wake_event where
  type : Nat
  key : List Int
deriving Repr, DecidableEq

/-- The inner key scan: `for (j = 0; j < WAKE_KEY_MAX && key[j] != -1; j++)
if (key[j] == KEY_ANY || key[j] == event.code) { need_wake = 1; break; }`. -/
def key_scan (keys : List Int) (code : Int) : Bool :=
  ((keys.take WAKE_KEY_MAX).takeWhile (fun k => k ≠ -1)).any
    (fun k => k == KEY_ANY || k == code)

/-- Whether one drained event sets `need_wake`: the event type must equal
the configured type; an `EV_ABS` source wakes on any such event, an
`EV_KEY` source wakes when the key scan matches, and any other configured
type never wakes. -/
def event_qualifies (cfg : light_wake_event) (ev : input_event) : Bool :=
  if ev.type == cfg.type then
    if ev.type == EV_ABS then true
    else if ev.type == EV_KEY then key_scan cfg.key ev.code
    else false
  else false

/-- The `while (read(...) == sizeof(event))` drain loop over one ready
source: every event of the batch is read; once `need_wake` is set the
remaining events are consumed by `continue` without further matching.
Returns the resulting `need_wake` together with the number of events
read. -/
def drain_source (cfg : light_wake_event) (batch : List input_event) (nw : Bool) :
    Bool × Nat :=
  match batch with
  | [] => (nw, 0)
  | ev :: rest =>
      let nw1 := if nw then nw else event_qualifies cfg ev
      let next := drain_source cfg rest nw1
      (next.1, next.2 + 1)

/-- One pass of the outer `for` body after `select` returns: `need_wake`
starts at 0, every ready source's batch is drained in order, and the
final flag decides whether the scheduler is signalled (once). -/
def wakeup_need_wake (srcs : List (light_wake_event × List input_event)) : Bool :=
  srcs.foldl (fun nw s => (drain_source s.1 s.2 nw).1) false

/-- Number of `pthread_cond_signal` calls `lights_events_thread` makes
for one readiness wakeup: one if `need_wake` ended up set, else zero. -/
def wakeup_signals (srcs : List (light_wake_event × List input_event)) : Nat :=
  if wakeup_need_wake srcs then 1 else 0

/-- Total number of events read (consumed) during one readiness wakeup. -/
def wakeup_reads (srcs : List (light_wake_event × List input_event)) : Nat :=
  srcs.foldl (fun n s => n + (drain_source s.1 s.2 false).2) 0

/-! ## Opening a light (`lights_open_node`) -/

/-- `open(path, O_RDWR)` with its recorded file operation. -/
def open_rw (env : FsEnv) (path : String) : Except Int Unit × List FileOp :=
  if env.open_ok path then (Except.ok (), [FileOp.openRW path])
  else (Except.error (-env.errno), [FileOp.openRW path])

/-- `lights_open_node(ctx, dev, id)`: the `strcmp` dispatch chain.  The
backlight branch first runs `determine_backlight_device` (failing with
`-ENODEV` when it selects nothing) and then opens the selected device's
brightness file; every other known identifier opens its fixed path; an
unknown identifier returns `-EINVAL` without touching any file. -/
def lights_open_node (env : FsEnv) (id : String) : Except Int Unit × List FileOp :=
  if id = LIGHT_ID_BACKLIGHT then
    match determine_backlight_device env with
    | (none, ops) => (Except.error (-ENODEV), ops)
    | (some sel, ops) =>
        let dev := backlight_devices.getD sel.1 no_backlight_dev
        let r := open_rw env dev.backlight_file
        (r.1, ops ++ r.2)
  else if id = LIGHT_ID_KEYBOARD then open_rw env LIGHT_ID_KEYBOARD_PATH
  else if id = LIGHT_ID_BUTTONS then open_rw env LIGHT_ID_BUTTONS_PATH
  else if id = LIGHT_ID_BATTERY then open_rw env LIGHT_ID_BATTERY_PATH
  else if id = LIGHT_ID_NOTIFICATIONS then open_rw env LIGHT_ID_NOTIFICATIONS_PATH
  else if id = LIGHT_ID_ATTENTION then open_rw env LIGHT_ID_ATTENTION_PATH
  else (Except.error (-EINVAL), [])

/-! ## Concrete environments used as witnesses -/

/-- A filesystem where every probe and operation succeeds and every
capability file parses to 100. -/
def envAll : FsEnv :=
  { access_w := fun _ => true
    access_r := fun _ => true
    open_ok := fun _ => true
    read_ok := fun _ => true
    file_int := fun _ => 100
    errno := 5 }

/-- A filesystem where every probe and operation fails. -/
def envNone : FsEnv :=
  { access_w := fun _ => false
    access_r := fun _ => false
    open_ok := fun _ => false
    read_ok := fun _ => false
    file_int := fun _ => 0
    errno := 5 }

/-! ## Helper lemmas about the conversions -/

theorem and_mask24 (n : Nat) : n &&& 0x00ffffff = n % 2 ^ 24 := by
  have h := Nat.and_pow_two_sub_one_eq_mod n 24
  norm_num at h
  exact h

theorem and_mask8 (n : Nat) : n &&& 0x00ff = n % 2 ^ 8 := by
  have h := Nat.and_pow_two_sub_one_eq_mod n 8
  norm_num at h
  exact h

/-- `__rgb_to_brightness` written with division and remainder in place of
the bit operations, with the `unsigned char` cast shown to be lossless. -/
theorem rgb_to_brightness_eq (c : Nat) :
    __rgb_to_brightness c =
      (77 * (c % 2 ^ 24 / 2 ^ 16) + 150 * (c % 2 ^ 24 / 2 ^ 8 % 2 ^ 8)
        + 29 * (c % 2 ^ 24 % 2 ^ 8)) >>> 8 := by
  unfold __rgb_to_brightness
  simp only [and_mask24, and_mask8, Nat.shiftRight_eq_div_pow]
  have ha : c % 2 ^ 24 < 2 ^ 24 := Nat.mod_lt _ (by norm_num)
  generalize c % 2 ^ 24 = a at ha ⊢
  have h1 : a / 2 ^ 16 % 2 ^ 8 = a / 2 ^ 16 := Nat.mod_eq_of_lt (by omega)
  rw [h1]
  have hG : a / 2 ^ 8 % 2 ^ 8 < 2 ^ 8 := Nat.mod_lt _ (by norm_num)
  have hB : a % 2 ^ 8 < 2 ^ 8 := Nat.mod_lt _ (by norm_num)
  have hR : a / 2 ^ 16 ≤ 255 := by omega
  have hs : 77 * (a / 2 ^ 16) + 150 * (a / 2 ^ 8 % 2 ^ 8) + 29 * (a % 2 ^ 8) ≤ 65280 := by
    omega
  have hq : (77 * (a / 2 ^ 16) + 150 * (a / 2 ^ 8 % 2 ^ 8) + 29 * (a % 2 ^ 8)) / 2 ^ 8 < 256 := by
    omega
  exact Nat.mod_eq_of_lt hq

theorem if_ne_zero_flip (n a b : Nat) :
    (if n ≠ 0 then a else b) = (if n = 0 then b else a) := by
  by_cases h : n = 0 <;> simp [h]

/-! ## Claim theorems -/

/-- C6: the backlight conversion computes `intensity = max * raw / 255`
with integer division; hence `raw = 0` yields `0`, the intensity is
monotonically non-decreasing in `raw`, and for `raw ≤ 255` it never
exceeds `max`. -/
theorem claim_C6_bright_to_intensity (max_br raw raw' : Nat)
    (hraw : raw ≤ 255) (hle : raw' ≤ raw) :
    bright_to_intensity max_br raw = max_br * raw / 255
    ∧ bright_to_intensity max_br 0 = 0
    ∧ bright_to_intensity max_br raw' ≤ bright_to_intensity max_br raw
    ∧ bright_to_intensity max_br raw ≤ max_br := by
  refine ⟨rfl, by simp [bright_to_intensity, BRIGHT_MAX_BAR], ?_, ?_⟩
  · exact Nat.div_le_div_right (Nat.mul_le_mul_left _ hle)
  · have h1 : max_br * raw / BRIGHT_MAX_BAR ≤ max_br * 255 / BRIGHT_MAX_BAR :=
      Nat.div_le_div_right (Nat.mul_le_mul_left _ hraw)
    have h2 : max_br * 255 / BRIGHT_MAX_BAR = max_br :=
      Nat.mul_div_cancel max_br (by norm_num)
    exact le_trans h1 (le_of_eq h2)

/-- Witness for C6 at `max = 100`, `raw = 128`, `raw' = 64`. -/
theorem claim_C6_witness :
    bright_to_intensity 100 128 = 100 * 128 / 255
    ∧ bright_to_intensity 100 0 = 0
    ∧ bright_to_intensity 100 64 ≤ bright_to_intensity 100 128
    ∧ bright_to_intensity 100 128 ≤ 100 :=
  claim_C6_bright_to_intensity 100 128 64 (by decide) (by decide)

/-- C7: the backlight brightness computed from a packed color (on the
non-override path) is `(77*R + 150*G + 29*B) >> 8` with `R`, `G`, `B`
the three bytes of the color's low 24 bits, and `set_light_backlight`
feeds exactly this value to the channel. -/
theorem claim_C7_rgb_luminance (color : Nat) (env : WriteEnv) (max_br : Int) :
    __rgb_to_brightness color =
      (77 * (color % 2 ^ 24 / 2 ^ 16) + 150 * (color % 2 ^ 24 / 2 ^ 8 % 2 ^ 8)
        + 29 * (color % 2 ^ 24 % 2 ^ 8)) >>> 8
    ∧ set_light_backlight env max_br color =
        write_brightness env max_br (__rgb_to_brightness color) :=
  ⟨rgb_to_brightness_eq color, rfl⟩

/-- C10: the weighted luminance sum is at most `256*255`, so the shift
by 8 stays below 256, the `unsigned char` result loses nothing, and the
maximal input `0xFFFFFF` maps to exactly 255. -/
theorem claim_C10_no_truncation (color : Nat) :
    77 * (color % 2 ^ 24 / 2 ^ 16) + 150 * (color % 2 ^ 24 / 2 ^ 8 % 2 ^ 8)
      + 29 * (color % 2 ^ 24 % 2 ^ 8) ≤ 256 * 255
    ∧ (77 * (color % 2 ^ 24 / 2 ^ 16) + 150 * (color % 2 ^ 24 / 2 ^ 8 % 2 ^ 8)
        + 29 * (color % 2 ^ 24 % 2 ^ 8)) >>> 8 ≤ 255
    ∧ __rgb_to_brightness color =
        (77 * (color % 2 ^ 24 / 2 ^ 16) + 150 * (color % 2 ^ 24 / 2 ^ 8 % 2 ^ 8)
          + 29 * (color % 2 ^ 24 % 2 ^ 8)) >>> 8
    ∧ __rgb_to_brightness 0xffffff = 255 := by
  have ha : color % 2 ^ 24 < 2 ^ 24 := Nat.mod_lt _ (by norm_num)
  have hG : color % 2 ^ 24 / 2 ^ 8 % 2 ^ 8 < 2 ^ 8 := Nat.mod_lt _ (by norm_num)
  have hB : color % 2 ^ 24 % 2 ^ 8 < 2 ^ 8 := Nat.mod_lt _ (by norm_num)
  have hR : color % 2 ^ 24 / 2 ^ 16 ≤ 255 := by omega
  have hs : 77 * (color % 2 ^ 24 / 2 ^ 16) + 150 * (color % 2 ^ 24 / 2 ^ 8 % 2 ^ 8)
      + 29 * (color % 2 ^ 24 % 2 ^ 8) ≤ 256 * 255 := by omega
  refine ⟨hs, ?_, rgb_to_brightness_eq color, by decide⟩
  rw [Nat.shiftRight_eq_div_pow]
  omega

/-- C8: every non-backlight light maps any color with a nonzero bit in
the low 24 bits to full intensity 255 and an all-zero low 24 bits to 0;
the auto-off buttons variant stores the same value into the scheduler. -/
theorem claim_C8_boolean_lights (color : Nat) :
    set_light_keyboard_request color
      = (if color &&& 0x00ffffff = 0 then LIGHT_LED_OFF else LIGHT_LED_FULL)
    ∧ set_light_buttons_request color
      = (if color &&& 0x00ffffff = 0 then LIGHT_LED_OFF else LIGHT_LED_FULL)
    ∧ set_light_battery_request color
      = (if color &&& 0x00ffffff = 0 then LIGHT_LED_OFF else LIGHT_LED_FULL)
    ∧ set_light_notifications_request color
      = (if color &&& 0x00ffffff = 0 then LIGHT_LED_OFF else LIGHT_LED_FULL)
    ∧ set_light_attention_request color
      = (if color &&& 0x00ffffff = 0 then LIGHT_LED_OFF else LIGHT_LED_FULL)
    ∧ set_light_buttons_event color
      = SchedEvent.setBrightness
          (if color &&& 0x00ffffff = 0 then LIGHT_LED_OFF else LIGHT_LED_FULL) := by
  refine ⟨?_, ?_, ?_, ?_, ?_, ?_⟩ <;>
    simp only [set_light_keyboard_request, set_light_buttons_request,
      set_light_battery_request, set_light_notifications_request,
      set_light_attention_request, set_light_buttons_event, __is_on,
      if_ne_zero_flip]

/-- C9: an identifier outside the six known ones makes `lights_open_node`
fail with `-EINVAL` and perform no file operation at all. -/
theorem claim_C9_unknown_identifier (env : FsEnv) (id : String)
    (h1 : id ≠ LIGHT_ID_BACKLIGHT) (h2 : id ≠ LIGHT_ID_KEYBOARD)
    (h3 : id ≠ LIGHT_ID_BUTTONS) (h4 : id ≠ LIGHT_ID_BATTERY)
    (h5 : id ≠ LIGHT_ID_NOTIFICATIONS) (h6 : id ≠ LIGHT_ID_ATTENTION) :
    lights_open_node env id = (Except.error (-EINVAL), []) := by
  unfold lights_open_node
  simp [h1, h2, h3, h4, h5, h6]

/-- Witness for C9 at the unknown identifier `"flashlight"`. -/
theorem claim_C9_witness :
    lights_open_node envAll "flashlight" = (Except.error (-EINVAL), []) :=
  claim_C9_unknown_identifier envAll "flashlight" (by decide) (by decide)
    (by decide) (by decide) (by decide) (by decide)

/-- A write environment whose device write succeeds. -/
def wenvOK : WriteEnv := { write_ok := true, errno := 5 }

/-- C2 counterexample: after a failed capability read (here: the max
file cannot even be opened, so `get_max_brightness` caches a negative
value), `write_brightness` does NOT fall back to any default maximum —
it returns `-1` and performs no device write, refuting the claim at
brightness 100 on the Intel candidate. -/
theorem claim_C2_counterexample :
    write_brightness wenvOK
      (get_max_brightness envNone (backlight_devices.getD 0 no_backlight_dev)).1 100
      = Except.error (-1) := rfl

/-- C2 amended: when reading the max-brightness capability file fails
(open or read failure), the cached maximum is negative and every
subsequent `write_brightness` fails with `-1` instead of writing with a
default maximum. -/
theorem claim_C2_amended (fs : FsEnv) (dev : backlight_device_t) (env : WriteEnv)
    (b : Nat) (herr : 0 < fs.errno)
    (hfail : fs.open_ok dev.backlight_max_file = false
      ∨ fs.read_ok dev.backlight_max_file = false) :
    write_brightness env (get_max_brightness fs dev).1 b = Except.error (-1) := by
  unfold get_max_brightness write_brightness
  by_cases ho : fs.open_ok dev.backlight_max_file = false
  · rw [if_pos ho]
    rw [if_pos (show -fs.errno < 0 by omega)]
  · rcases hfail with h | h
    · exact absurd h ho
    · rw [if_neg ho, if_pos h]
      rw [if_pos (show (-1 : Int) < 0 by norm_num)]

/-- Witness for the amended C2 on the ACPI candidate with a read failure. -/
theorem claim_C2_amended_witness :
    write_brightness wenvOK
      (get_max_brightness envNone (backlight_devices.getD 1 no_backlight_dev)).1 42
      = Except.error (-1) :=
  claim_C2_amended envNone (backlight_devices.getD 1 no_backlight_dev) wenvOK 42
    (by decide) (Or.inl rfl)

/-! ## Lemmas for the wake-event monitor -/

theorem drain_source_eq (cfg : light_wake_event) (batch : List input_event) (nw : Bool) :
    drain_source cfg batch nw = (nw || batch.any (event_qualifies cfg), batch.length) := by
  induction batch generalizing nw with
  | nil => simp [drain_source]
  | cons ev rest ih => cases nw <;> simp [drain_source, ih, Bool.or_assoc]

theorem foldl_drain (l : List (light_wake_event × List input_event)) (b : Bool) :
    l.foldl (fun nw s => (drain_source s.1 s.2 nw).1) b
      = (b || l.any (fun s => s.2.any (event_qualifies s.1))) := by
  induction l generalizing b with
  | nil => simp
  | cons s rest ih =>
      rw [List.foldl_cons, ih, drain_source_eq]
      simp [Bool.or_assoc]

theorem foldl_reads (l : List (light_wake_event × List input_event)) (n : Nat) :
    l.foldl (fun m s => m + (drain_source s.1 s.2 false).2) n
      = n + (l.map (fun s => s.2.length)).sum := by
  induction l generalizing n with
  | nil => simp
  | cons s rest ih =>
      rw [List.foldl_cons, ih, drain_source_eq]
      simp
      omega

/-- C5: one readiness wakeup of the monitor signals the scheduler exactly
once when some drained event qualifies and never otherwise, while every
event of every drained batch is read. -/
theorem claim_C5_signal_once (srcs : List (light_wake_event × List input_event)) :
    wakeup_signals srcs
      = (if srcs.any (fun s => s.2.any (event_qualifies s.1)) then 1 else 0)
    ∧ wakeup_reads srcs = (srcs.map (fun s => s.2.length)).sum := by
  constructor
  · unfold wakeup_signals wakeup_need_wake
    rw [foldl_drain, Bool.false_or]
  · unfold wakeup_reads
    rw [foldl_reads, Nat.zero_add]

/-! ## Lemmas for the auto-off scheduler -/

theorem apply_event_status (e : SchedEvent) (st : light_info) :
    (apply_event e st).brightness_status = st.brightness_status := by
  cases e <;> rfl

theorem update_step_auto_off_time (st : light_info) :
    (update_step st).1.auto_off_time = st.auto_off_time := by
  simp only [update_step]
  split_ifs <;> rfl

theorem update_step_cases (st : light_info) :
    ((update_step st).2.1 = [] ∧ (update_step st).1.brightness_status = st.brightness_status)
    ∨ (∃ v, (update_step st).2.1 = [v] ∧ v ≠ st.brightness_status
        ∧ (update_step st).1.brightness_status = v) := by
  cases h1 : st.need_update
  · by_cases h3 : st.brightness_status = LIGHT_LED_OFF
    · exact Or.inl ⟨by simp [update_step, h1, h3], by simp [update_step, h1, h3]⟩
    · refine Or.inr ⟨LIGHT_LED_OFF, by simp [update_step, h1, h3],
        fun hv => h3 hv.symm, by simp [update_step, h1, h3]⟩
  · by_cases h2 : st.brightness_status = st.brightness
    · exact Or.inl ⟨by simp [update_step, h1, h2], by simp [update_step, h1, h2]⟩
    · refine Or.inr ⟨st.brightness, by simp [update_step, h1, h2],
        fun hv => h2 hv.symm, by simp [update_step, h1, h2]⟩

theorem sched_run_writes_chain (st : light_info) (events : List SchedEvent) :
    List.Chain' (fun a b => a ≠ b) (sched_run st events).2
    ∧ (∀ v, (sched_run st events).2.head? = some v → v ≠ st.brightness_status) := by
  induction events generalizing st with
  | nil => simp [sched_run]
  | cons e rest ih =>
      obtain ⟨hchain, hhead⟩ := ih (update_step (apply_event e st)).1
      rcases update_step_cases (apply_event e st) with ⟨hw, hs⟩ | ⟨v, hw, hne, hs⟩
      · refine ⟨?_, ?_⟩
        · simpa [sched_run, hw] using hchain
        · intro u hu
          simp only [sched_run, hw, List.nil_append] at hu
          have := hhead u hu
          rw [hs, apply_event_status] at this
          exact this
      · refine ⟨?_, ?_⟩
        · have hhd : ∀ y ∈ (sched_run (update_step (apply_event e st)).1 rest).2.head?,
              v ≠ y := by
            intro y hy
            have hy' : (sched_run (update_step (apply_event e st)).1 rest).2.head?
                = some y := by simpa [Option.mem_def] using hy
            have := hhead y hy'
            rw [hs] at this
            exact fun hvy => this (hvy ▸ rfl)
          simpa [sched_run, hw] using List.chain'_cons'.mpr ⟨hhd, hchain⟩
        · intro u hu
          simp only [sched_run, hw, List.cons_append, List.nil_append,
            List.head?_cons, Option.some.injEq] at hu
          subst hu
          rw [apply_event_status] at hne
          exact hne

/-- C3: the scheduler never performs two consecutive device writes of the
same value (including the startup write), and two consecutive requests of
the same (new) brightness produce exactly one device write. -/
theorem claim_C3_no_duplicate_writes :
    (∀ (info : light_info) (events : List SchedEvent),
        List.Chain' (fun a b => a ≠ b) (lights_thread_writes info events))
    ∧ (∀ (st : light_info) (v : Nat), v ≠ st.brightness_status →
        (sched_run st
          [SchedEvent.setBrightness v, SchedEvent.setBrightness v]).2 = [v]) := by
  constructor
  · intro info events
    unfold lights_thread_writes
    obtain ⟨hchain, hhead⟩ := sched_run_writes_chain (lights_update_start info).1 events
    have hst : (lights_update_start info).1.brightness_status = info.brightness := rfl
    refine List.chain'_cons'.mpr ⟨?_, hchain⟩
    intro y hy
    have := hhead y hy
    rw [hst] at this
    exact fun hvy => this (hvy ▸ rfl)
  · intro st v hv
    simp [sched_run, apply_event, update_step, Ne.symm hv]

/-- Witness for C3: setting brightness 7 twice from an off state writes
the device exactly once. -/
theorem claim_C3_witness :
    (sched_run
        { brightness := 0, brightness_status := 0, need_update := false,
          need_auto_off := false, auto_off_time := 5 }
        [SchedEvent.setBrightness 7, SchedEvent.setBrightness 7]).2 = [7] :=
  claim_C3_no_duplicate_writes.2 _ 7 (by decide)

/-- C4: after an iteration the loop blocks indefinitely exactly when the
applied brightness is `LIGHT_LED_OFF` and otherwise arms a timeout of
`auto_off_time` seconds; an expired timed wait (no pending update) makes
the next iteration write `LIGHT_LED_OFF` unless already off. -/
theorem claim_C4_wait_modes (st : light_info) :
    (update_step st).2.2
      = (if (update_step st).1.brightness_status = LIGHT_LED_OFF then WaitMode.forever
          else WaitMode.timed st.auto_off_time)
    ∧ (st.need_update = false →
        (update_step st).2.1
          = (if st.brightness_status = LIGHT_LED_OFF then ([] : List Nat)
              else [LIGHT_LED_OFF])) := by
  constructor
  · rw [← update_step_auto_off_time st]
    rfl
  · intro hnu
    by_cases hoff : st.brightness_status = LIGHT_LED_OFF <;>
      simp [update_step, hnu, hoff]

/-- Witness for C4: a timed-out wait (no update pending) at applied
brightness 9 writes `LIGHT_LED_OFF` in the next iteration. -/
theorem claim_C4_witness :
    (update_step
        { brightness := 7, brightness_status := 9, need_update := false,
          need_auto_off := true, auto_off_time := 5 }).2.1 = [LIGHT_LED_OFF] := by
  simpa using
    (claim_C4_wait_modes
      { brightness := 7, brightness_status := 9, need_update := false,
        need_auto_off := true, auto_off_time := 5 }).2 rfl

/-- C1 counterexample: in a filesystem where all three candidate
backlight controls qualify (every control file writable, every
capability file readable), the probe loop — having no `break` — ends
with the LAST candidate (`PSB-BL`, index 2) selected, while the claim's
"first qualifying candidate" rule would select `Intel` (index 0). -/
theorem claim_C1_counterexample :
    (determine_backlight_device envAll).1.map Prod.fst = some 2
    ∧ first_qualifying_backlight envAll = some 0 := by
  constructor <;> rfl

/-- C1 amended: device-profile discovery probes the candidates in the
fixed order Intel, ACPI, PSB-BL but selects the LAST candidate whose
brightness file is writable and whose max-brightness file is readable;
if no candidate qualifies, opening the backlight fails with `-ENODEV`. -/
theorem claim_C1_last_qualifying (env : FsEnv) :
    (determine_backlight_device env).1.map Prod.fst
      = ((List.range MAX_BL_CTRL_DEVICES).filter (fun i => bl_qualifies env i)).getLast?
    ∧ ((determine_backlight_device env).1 = none →
        (lights_open_node env LIGHT_ID_BACKLIGHT).1 = Except.error (-ENODEV)) := by
  constructor
  · rw [determine_backlight_device, show List.range MAX_BL_CTRL_DEVICES = [0, 1, 2] from rfl]
    cases hw0 : env.access_w "/sys/class/backlight/intel_backlight/brightness" <;>
    cases hr0 : env.access_r "/sys/class/backlight/intel_backlight/max_brightness" <;>
    cases hw1 : env.access_w "/sys/class/backlight/acpi_video0/brightness" <;>
    cases hr1 : env.access_r "/sys/class/backlight/acpi_video0/max_brightness" <;>
    cases hw2 : env.access_w "/sys/class/backlight/psb-bl/brightness" <;>
    cases hr2 : env.access_r "/sys/class/backlight/psb-bl/max_brightness" <;>
      simp [determine_step, bl_qualifies, backlight_devices, List.getD,
        hw0, hr0, hw1, hr1, hw2, hr2]
  · intro hnone
    unfold lights_open_node
    rw [if_pos rfl]
    rcases hdet : determine_backlight_device env with ⟨d, ops⟩
    rw [hdet] at hnone
    simp only at hnone
    subst hnone
    simp

/-- Witness for amended C1: with no qualifying candidate, opening the
backlight fails with `-ENODEV`. -/
theorem claim_C1_last_qualifying_witness :
    (lights_open_node envNone LIGHT_ID_BACKLIGHT).1 = Except.error (-ENODEV) :=
  (claim_C1_last_qualifying envNone).2 rfl
